import Mathlib

/-!
Shallow embedding of `src/tesseract_node3.py` (TESSERACT-NODE v1.0), a
single-file Flask demo server with five JSON routes over three pieces of
state: a mutable 4-D position (`Spacetime4D`), a pass-through adapter to a
quantum-circuit simulator (`QuantumCore`), and a dictionary keyed by 4-tuples
(`HyperMemory`).

Numbers held in the position and passed as route deltas are modelled as `ℚ`
(the Python code uses int/float arithmetic; we use exact rationals).
The external circuit simulator is a black box: each measurement outcome is a
free parameter (a list of booleans, one per measured classical bit).  What we
do model precisely, because it is determined by the circuit-construction calls
in the source and by the simulator library's documented counts format, is the
classical-register layout of each circuit and how a counts key is rendered
from it: one group of characters per classical register, registers listed in
reverse order of addition, separated by single spaces; bits never written by a
measurement render as the character zero.
-/

/-! ### 4-D spacetime coordinates (`class Spacetime4D`, lines 22-32) -/

/-- State of `Spacetime4D`: the four mutable scalar fields, all initialised
to `0` in `__init__`. -/
structure Spacetime4D where
  t : ℚ
  x : ℚ
  y : ℚ
  z : ℚ
deriving DecidableEq, Repr

/-- The constant `self.c = 299792458` set in `Spacetime4D.__init__`. -/
def Spacetime4D.c : ℚ := 299792458

/-- The initial position created by `Spacetime4D()`: all four fields `0`. -/
def Spacetime4D.init : Spacetime4D := ⟨0, 0, 0, 0⟩

/-- `Spacetime4D.move(self, dt, dx, dy, dz)` (lines 27-32): adds each delta
to the corresponding field in place and returns the tuple
`(self.c * self.t, self.x, self.y, self.z)`.  Modelled as a function from the
old state to the new state paired with the returned tuple. -/
def Spacetime4D.move (s : Spacetime4D) (dt dx dy dz : ℚ) :
    Spacetime4D × (ℚ × ℚ × ℚ × ℚ) :=
  let s' : Spacetime4D := ⟨s.t + dt, s.x + dx, s.y + dy, s.z + dz⟩
  (s', (Spacetime4D.c * s'.t, s'.x, s'.y, s'.z))

/-! ### IEEE-754 binary64 model for the accumulated float arithmetic

`Spacetime4D` above is the exact-arithmetic view of the position: it is
adequate for the structural claims (which field receives which delta, zero
deltas are an identity, the integer-only seeding loop), where rounding can
never intervene.  The additivity of `/move`, however, is a statement about
the accumulated Python `float` sums themselves, so it is settled against the
following exact model of IEEE-754 binary64 arithmetic: a finite double is
represented by the integer multiple of `2 ^ (-1074)` (the smallest positive
double) that it is, and each arithmetic step applies correct rounding to
nearest, ties to even.  Results beyond the largest finite double (Python
would produce an infinity) are outside the model and yield `none`. -/

/-- Tail-recursive core of `bitLen`: counts binary digits into `acc`. -/
def bitLenAux : ℕ → ℕ → ℕ → ℕ
  | 0, _, acc => acc
  | fuel + 1, n, acc => if n = 0 then acc else bitLenAux fuel (n / 2) (acc + 1)

/-- Number of binary digits of a natural number (`0` for `0`), with explicit
fuel so that it reduces inside the kernel; every use supplies fuel far above
the bit width of the numbers involved. -/
def bitLen (fuel n : ℕ) : ℕ := bitLenAux fuel n 0

/-- The largest finite binary64, `(2 - 2 ^ (-52)) * 2 ^ 1023`, in units of
`2 ^ (-1074)`. -/
def maxFiniteFP : ℕ := (2 ^ 53 - 1) * 2 ^ 2045

/-- Correct rounding of an exact value (an integer multiple of
`2 ^ (-1074)`) to the nearest representable binary64, ties to even: values
whose magnitude fits in 53 bits are exact (subnormals and small normals);
otherwise the low `sh` bits are rounded away at the 53-bit mantissa
granularity.  `none` when the rounded magnitude exceeds the largest finite
double. -/
def roundFP (v : ℤ) : Option ℤ :=
  let n := v.natAbs
  let L := bitLen 4000 n
  if L ≤ 53 then some v
  else
    let sh := L - 53
    let q := n / 2 ^ sh
    let r := n % 2 ^ sh
    let half := 2 ^ (sh - 1)
    let q' := if r < half then q else if half < r then q + 1
      else if q % 2 = 0 then q else q + 1
    let R := q' * 2 ^ sh
    if R ≤ maxFiniteFP then some (v.sign * R) else none

/-- Python `float` addition `a + b`: the correctly rounded exact sum. -/
def fpAdd (a b : ℤ) : Option ℤ := roundFP (a + b)

/-- Python `self.c * self.t` on line 32 with `t` a float: `c = 299792458` is
an int below `2 ^ 53`, so its conversion to float is exact and the product is
the correctly rounded exact product. -/
def fpCMul (t : ℤ) : Option ℤ := roundFP (299792458 * t)

/-- Float-level state of `Spacetime4D`: the four fields as finite binary64
values in units of `2 ^ (-1074)`. -/
structure Spacetime4DF where
  t : ℤ
  x : ℤ
  y : ℤ
  z : ℤ
deriving DecidableEq, Repr

/-- `Spacetime4D.move` (lines 27-32) under IEEE binary64 semantics: each
`+=` is a correctly rounded float addition and the first component of the
returned tuple is the correctly rounded product `self.c * self.t`.  `none`
when an addition leaves the finite range (the model's scope); the tuple's
first component is likewise optional because the product can overflow even
from an in-range state. -/
def Spacetime4DF.move (s : Spacetime4DF) (dt dx dy dz : ℤ) :
    Option (Spacetime4DF × (Option ℤ × ℤ × ℤ × ℤ)) :=
  match fpAdd s.t dt, fpAdd s.x dx, fpAdd s.y dy, fpAdd s.z dz with
  | some t', some x', some y', some z' =>
      some (⟨t', x', y', z'⟩, (fpCMul t', x', y', z'))
  | _, _, _, _ => none

/-! ### Circuit register layout and counts-key format (`class QuantumCore`,
lines 35-80)

Gate applications (`h`, `cx`, `cz`, `x`, `mcx`) do not alter the classical
register layout, and the measurement outcome itself is a free parameter, so
only the constructor, `measure`, and `measure_all` calls are modelled. -/

/-- Classical-register layout of a circuit: `nqubits`, and for each classical
register, in order of addition, its size and whether its bits receive
measurement results. -/
structure QCircuit where
  nqubits : ℕ
  cregs : List (ℕ × Bool)
deriving DecidableEq, Repr

/-- `QuantumCircuit(n, m)`: `n` qubits and one classical register of `m`
bits, not yet written by any measurement. -/
def QCircuit.new (n m : ℕ) : QCircuit := ⟨n, [(m, false)]⟩

/-- `qc.measure(qubits, clbits)` as used in the source (lines 43 and 76),
where the classical bits are exactly the bits of the circuit's original
(first) classical register: marks that register as measured. -/
def QCircuit.measure (qc : QCircuit) : QCircuit :=
  ⟨qc.nqubits,
    match qc.cregs with
    | [] => []
    | r :: rest => (r.1, true) :: rest⟩

/-- `qc.measure_all()` (line 54): adds a fresh classical register of
`nqubits` bits and measures every qubit into it.  The pre-existing registers
are untouched. -/
def QCircuit.measure_all (qc : QCircuit) : QCircuit :=
  ⟨qc.nqubits, qc.cregs ++ [(qc.nqubits, true)]⟩

/-- Renders one classical register in a counts key.  A measured register
shows its outcome bits as characters; a register never written by a
measurement shows one zero character per bit. -/
def regString (size : ℕ) (measured : Bool) (bits : List Bool) : String :=
  if measured then String.mk (bits.map fun b => if b then '1' else '0')
  else String.mk (List.replicate size '0')

/-- Counts-key format of `result.get_counts()`: one group per classical
register, rendered by `regString`, listed in reverse order of register
addition and joined with single spaces.  `outs` supplies the outcome bits of
each register positionally (ignored for unmeasured registers). -/
def countsKey (regs : List (ℕ × Bool)) (outs : List (List Bool)) : String :=
  String.intercalate " " (((regs.zip outs).map fun p => regString p.1.1 p.1.2 p.2).reverse)

/-- `QuantumCore.create_entangled_pair` (lines 39-47): builds
`QuantumCircuit(2, 2)`, applies gates, measures `[0,1]` into `[0,1]`, runs one
shot and returns the single counts key.  The outcome bits are a free
parameter. -/
def create_entangled_pair (outcome : List Bool) : String :=
  countsKey ((QCircuit.new 2 2).measure).cregs [outcome]

/-- `QuantumCore.ghz_state(4)` as used by the `/ghz` route (lines 49-56 and
139-141): builds `QuantumCircuit(4, 4)`, applies gates, then calls
`measure_all()` — which adds a second classical register — runs one shot and
the route takes the single counts key.  Only the added register is measured;
the original 4-bit register is never written.  The outcome bits of the added
register are a free parameter. -/
def ghz_state (outcome : List Bool) : String :=
  countsKey ((QCircuit.new 4 4).measure_all).cregs [[], outcome]

/-- `QuantumCore.grover_search(2, target)` (lines 58-80): builds
`QuantumCircuit(2, 2)` and on line 65 runs
`qc.cz(0, 1) if target == '11' else qc.id()`.  `cz` leaves the register
layout unchanged, but `QuantumCircuit.id` requires a qubit argument, so for
every target other than `'11'` the call `qc.id()` raises `TypeError` before
the backend is ever invoked — modelled as `none`.  For target `'11'` the
diffusion gates follow, `range(2)` is measured into `range(2)`, one shot is
run and the single counts key is returned; its outcome bits are a free
parameter. -/
def grover_search (target : String) (outcome : List Bool) : Option String :=
  if target = "11" then some (countsKey ((QCircuit.new 2 2).measure).cregs [outcome])
  else none

/-! ### 4-D data storage (`class HyperMemory`, lines 83-91) -/

/-- Keys of the memory dictionary: 4-tuples of numbers. -/
abbrev Coord : Type := ℚ × ℚ × ℚ × ℚ

/-- Python-dict update on an association list: replace the value in place if
the key is present, otherwise append the new pair at the end. -/
def dictStore : List (Coord × ℕ) → Coord → ℕ → List (Coord × ℕ)
  | [], k, v => [(k, v)]
  | (k', v') :: rest, k, v =>
      if k = k' then (k, v) :: rest else (k', v') :: dictStore rest k v

/-- Python-dict `get(coord, None)` on an association list. -/
def dictGet : List (Coord × ℕ) → Coord → Option ℕ
  | [], _ => none
  | (k', v') :: rest, k => if k = k' then some v' else dictGet rest k

/-- State of `HyperMemory`: its `data` dictionary, as an insertion-ordered
association list.  The values stored by this program are the integers drawn
by `np.random.randint(0, 100)`, so the value type is `ℕ`. -/
structure HyperMemory where
  data : List (Coord × ℕ)
deriving DecidableEq

/-- `HyperMemory()`: empty dictionary. -/
def HyperMemory.init : HyperMemory := ⟨[]⟩

/-- `HyperMemory.store(self, coord, value)` (lines 87-88). -/
def HyperMemory.store (m : HyperMemory) (coord : Coord) (v : ℕ) : HyperMemory :=
  ⟨dictStore m.data coord v⟩

/-- `HyperMemory.retrieve(self, coord)` (lines 90-91): `data.get(coord, None)`. -/
def HyperMemory.retrieve (m : HyperMemory) (coord : Coord) : Option ℕ :=
  dictGet m.data coord

/-! ### Global instances and startup seeding (lines 94-101) -/

/-- Combined mutable server state: the global `spacetime` and `memory`
instances (the `QuantumCore` instance holds no mutable state we model). -/
structure ServerState where
  spacetime : Spacetime4D
  memory : HyperMemory
deriving DecidableEq

/-- One iteration of the seeding loop (lines 99-101):
`pos = spacetime.move(0, i, 0, 0); memory.store(pos, <random int>)`. -/
def seedStep (st : Spacetime4D) (mem : HyperMemory) (i : ℕ) (v : ℕ) :
    Spacetime4D × HyperMemory :=
  let r := st.move 0 (i : ℚ) 0 0
  (r.1, mem.store r.2 v)

/-- The whole startup seeding loop `for i in range(4)` (lines 99-101), run
from the freshly constructed global instances.  `vals i` stands for the value
drawn by `np.random.randint(0, 100)` at iteration `i`. -/
def seedAll (vals : ℕ → ℕ) : Spacetime4D × HyperMemory :=
  (List.range 4).foldl (fun p i => seedStep p.1 p.2 i (vals i))
    (Spacetime4D.init, HyperMemory.init)

/-- The server state at the end of module initialisation. -/
def startupState (vals : ℕ → ℕ) : ServerState :=
  ⟨(seedAll vals).1, (seedAll vals).2⟩

/-! ### Route handlers (lines 104-160)

Each handler is modelled as a function from the server state (plus the
handler's external inputs: query parameters, simulator outcomes, the clock)
to the new server state paired with its response. -/

/-- Response of `GET /` (lines 104-116): a constant HTML page; its exact text
is irrelevant to every claim, so it is abbreviated to its heading. -/
def homePage : String := "<h1>TESSERACT-NODE v1.0</h1>"

/-- Handler of `GET /` (lines 104-116): returns the constant page and touches
no state. -/
def homeHandler (s : ServerState) : ServerState × String := (s, homePage)

/-- JSON body of `GET /status` (lines 120-127). -/
structure StatusResp where
  node : String
  statusField : String
  time : String
  position : ℚ × ℚ × ℚ × ℚ
  qubits : ℕ
  offline : Bool
deriving DecidableEq

/-- Handler of `GET /status` (lines 118-127): reports fixed fields, the
current wall-clock time (`now`, a free parameter), and the position tuple
obtained from `spacetime.move(0,0,0,0)` — which also writes the (unchanged)
sums back into the position state. -/
def statusHandler (s : ServerState) (now : String) : ServerState × StatusResp :=
  let r := s.spacetime.move 0 0 0 0
  ({ s with spacetime := r.1 },
   { node := "Tesseract-Node Ω", statusField := "4D OPERATIONAL", time := now,
     position := r.2, qubits := 16, offline := true })

/-- JSON body of `GET /entangle` (lines 132-135). -/
structure EntangleResp where
  bell_pair : String
  entanglement : String
deriving DecidableEq

/-- Handler of `GET /entangle` (lines 129-135). -/
def entangleHandler (s : ServerState) (outcome : List Bool) :
    ServerState × EntangleResp :=
  (s, { bell_pair := create_entangled_pair outcome, entanglement := "ACHIEVED" })

/-- JSON body of `GET /ghz` (lines 140-143). -/
structure GhzResp where
  ghz_state : String
  qubits : ℕ
deriving DecidableEq

/-- Handler of `GET /ghz` (lines 137-143): `list(result.keys())[0]` of the
one-shot counts, and the constant `4`. -/
def ghzHandler (s : ServerState) (outcome : List Bool) : ServerState × GhzResp :=
  (s, { ghz_state := ghz_state outcome, qubits := 4 })

/-- JSON body of `GET /move` (line 150). -/
structure MoveResp where
  new_position : ℚ × ℚ × ℚ × ℚ
deriving DecidableEq

/-- A query parameter as seen by `float(request.args.get(name, 0))`:
`none` when the parameter is absent (the default `0` is then parsed, giving
`0`); `some none` when it is present but not a valid float literal (then
`float` raises an uncaught `ValueError`); `some (some q)` when it is present
and denotes the number `q`. -/
def parseParam : Option (Option ℚ) → Option ℚ
  | none => some 0
  | some v => v

/-- Handler of `GET /move` (lines 145-150).  Both parameters are parsed
before `spacetime.move` is called, so a parse failure on either one
propagates as an uncaught exception — modelled as response `none` — with the
state untouched. -/
def moveHandler (s : ServerState) (dtArg dxArg : Option (Option ℚ)) :
    ServerState × Option MoveResp :=
  match parseParam dtArg with
  | none => (s, none)
  | some dt =>
    match parseParam dxArg with
    | none => (s, none)
    | some dx =>
      let r := s.spacetime.move dt dx 0 0
      ({ s with spacetime := r.1 }, some { new_position := r.2 })

/-- JSON body of `GET /grover` (line 160). -/
structure GroverResp where
  found_item : Option ℕ
  at_binary_index : String
  quantum_speedup : String
deriving DecidableEq

/-- Handler of `GET /grover` (lines 152-160): runs the search (its raw
bitstring becomes `at_binary_index`; the intermediate `index = int(result,
2)` is computed and never used), then looks `found` up at the dummy
coordinate `tuple([0] * 4)` — ignoring the search result.  When
`grover_search` raises (every target other than `'11'`), the exception
propagates before any lookup and no JSON response is produced, with the
state untouched. -/
def groverHandler (s : ServerState) (target : String) (outcome : List Bool) :
    ServerState × Option GroverResp :=
  match grover_search target outcome with
  | none => (s, none)
  | some result =>
    let pos : Coord := (0, 0, 0, 0)
    (s, some { found_item := s.memory.retrieve pos,
               at_binary_index := result,
               quantum_speedup := "ACHIEVED" })

lemma seedAll_eq (vals : ℕ → ℕ) : seedAll vals =
    (⟨0, 6, 0, 0⟩, ⟨[(((0:ℚ),(0:ℚ),(0:ℚ),(0:ℚ)), vals 0), ((0,1,0,0), vals 1),
      ((0,3,0,0), vals 2), ((0,6,0,0), vals 3)]⟩) := by
  simp only [seedAll, List.range_succ, List.range_zero, List.nil_append,
    List.cons_append, List.foldl_cons, List.foldl_nil, seedStep,
    Spacetime4D.move, Spacetime4D.init, HyperMemory.init, HyperMemory.store,
    dictStore]
  norm_num [dictStore, Prod.mk.injEq, Prod.mk_eq_zero, Spacetime4D.mk.injEq,
    HyperMemory.mk.injEq]

lemma create_entangled_pair_eq (outcome : List Bool) :
    create_entangled_pair outcome = String.mk (outcome.map fun b => if b then '1' else '0') := rfl

lemma ghz_state_eq (outcome : List Bool) :
    ghz_state outcome = String.mk (outcome.map fun b => if b then '1' else '0') ++ " " ++ "0000" := rfl

lemma grover_search_found (outcome : List Bool) :
    grover_search "11" outcome =
      some (String.mk (outcome.map fun b => if b then '1' else '0')) := by
  rw [grover_search, if_pos rfl]
  rfl

lemma grover_search_raises (target : String) (outcome : List Bool)
    (h : target ≠ "11") : grover_search target outcome = none := by
  simp [grover_search, h]

set_option maxRecDepth 16000 in
set_option exponentiation.threshold 3000 in
/-- C1 counterexample: from the reachable position `t = 2 ^ 52` (all other
fields `0`), two `/move` steps with `dt = 0.5` each leave `t` at `2 ^ 52`
(each half-ulp tie rounds to even), while the single step with
`dt = 0.5 + 0.5 = 1.0` (that float sum is exact) gives `t = 2 ^ 52 + 1`: the
final states and final returned tuples differ, so `/move` is not additive
under the program's float arithmetic.  Values are in units of
`2 ^ (-1074)`: `2 ^ 1126` is the double `2 ^ 52` and `2 ^ 1073` is `0.5`. -/
theorem moveF_additive_counterexample :
    ((Spacetime4DF.mk ((2 ^ 1126 : ℕ) : ℤ) 0 0 0).move ((2 ^ 1073 : ℕ) : ℤ) 0 0 0).bind
        (fun r => r.1.move ((2 ^ 1073 : ℕ) : ℤ) 0 0 0) ≠
      (Spacetime4DF.mk ((2 ^ 1126 : ℕ) : ℤ) 0 0 0).move
        (((2 ^ 1073 : ℕ) : ℤ) + ((2 ^ 1073 : ℕ) : ℤ)) 0 0 0 := by
  decide

/-- C1 (amended): `/move` is additive whenever the floating-point additions
involved are exact — each sum representable as a binary64 (and the unmoved
`y`, `z` fields representable, so that adding their zero deltas is the
identity): then `move(a, b)` followed by `move(c, d)` yields the same final
position state and the same final returned tuple as the single call
`move(a + c, b + d)`.  In general IEEE rounding breaks additivity. -/
theorem moveF_additive_when_exact (s : Spacetime4DF) (a b c d : ℤ)
    (hta : fpAdd s.t a = some (s.t + a))
    (htac : fpAdd (s.t + a) c = some (s.t + a + c))
    (htac1 : fpAdd s.t (a + c) = some (s.t + (a + c)))
    (hxb : fpAdd s.x b = some (s.x + b))
    (hxbd : fpAdd (s.x + b) d = some (s.x + b + d))
    (hxbd1 : fpAdd s.x (b + d) = some (s.x + (b + d)))
    (hy : roundFP s.y = some s.y)
    (hz : roundFP s.z = some s.z) :
    (s.move a b 0 0).bind (fun r => r.1.move c d 0 0) =
      s.move (a + c) (b + d) 0 0 := by
  have hy0 : fpAdd s.y 0 = some s.y := by simpa [fpAdd] using hy
  have hz0 : fpAdd s.z 0 = some s.z := by simpa [fpAdd] using hz
  simp [Spacetime4DF.move, hta, htac, htac1, hxb, hxbd, hxbd1, hy0, hz0,
    add_assoc]

theorem moveF_additive_when_exact_witness :
    fpAdd (0 : ℤ) 1 = some (0 + 1) ∧ fpAdd ((0 : ℤ) + 1) 2 = some (0 + 1 + 2) ∧
    fpAdd (0 : ℤ) (1 + 2) = some (0 + (1 + 2)) ∧
    fpAdd (0 : ℤ) 1 = some (0 + 1) ∧ fpAdd ((0 : ℤ) + 1) 2 = some (0 + 1 + 2) ∧
    fpAdd (0 : ℤ) (1 + 2) = some (0 + (1 + 2)) ∧
    roundFP 0 = some 0 ∧
    ((Spacetime4DF.mk 0 0 0 0).move 1 1 0 0).bind (fun r => r.1.move 2 2 0 0) =
      (Spacetime4DF.mk 0 0 0 0).move (1 + 2) (1 + 2) 0 0 :=
  ⟨by decide, by decide, by decide, by decide, by decide, by decide, by decide,
   moveF_additive_when_exact ⟨0, 0, 0, 0⟩ 1 1 2 2 (by decide) (by decide)
     (by decide) (by decide) (by decide) (by decide) (by decide) (by decide)⟩

/-- C2 counterexample: at the all-zero measurement outcome, the `ghz_state`
field of the `/ghz` response is not 4 characters long (it is the 9-character
key "0000 0000", because `measure_all` adds a second classical register). -/
theorem ghz_state_not_four_chars :
    (ghzHandler ⟨Spacetime4D.init, HyperMemory.init⟩
      [false, false, false, false]).2.ghz_state.length ≠ 4 := by decide

/-- C2 (amended): for every state and every 4-bit measurement outcome, the
`ghz_state` field of the `/ghz` response is the 4 outcome bits rendered as
characters, then a space, then the four zero characters of the unmeasured
original register — a 9-character string over the characters zero, one and
space — and the `qubits` field is `4`. -/
theorem ghz_response_shape (s : ServerState) (outcome : List Bool)
    (h : outcome.length = 4) :
    (ghzHandler s outcome).2.ghz_state =
      String.mk (outcome.map fun b => if b then '1' else '0') ++ " " ++ "0000" ∧
    (ghzHandler s outcome).2.ghz_state.length = 9 ∧
    (∀ ch ∈ (ghzHandler s outcome).2.ghz_state.toList,
      ch = '0' ∨ ch = '1' ∨ ch = ' ') ∧
    (ghzHandler s outcome).2.qubits = 4 := by
  refine ⟨rfl, ?_, ?_, rfl⟩
  · simp [ghzHandler, ghz_state_eq, String.length_append, String.length_mk, h]
    decide
  · intro ch hch
    simp only [ghzHandler, ghz_state_eq, String.toList, String.data_append] at hch
    rcases List.mem_append.1 hch with hch | hch
    · rcases List.mem_append.1 hch with hch | hch
      · rcases List.mem_map.1 hch with ⟨b, _, rfl⟩
        cases b <;> simp
      · simp at hch; simp [hch]
    · simp at hch; simp [hch]

theorem ghz_response_shape_witness :
    ([true, false, true, true] : List Bool).length = 4 ∧
    (ghzHandler ⟨Spacetime4D.init, HyperMemory.init⟩
      [true, false, true, true]).2.ghz_state.length = 9 :=
  ⟨by decide,
   (ghz_response_shape ⟨Spacetime4D.init, HyperMemory.init⟩
      [true, false, true, true] (by decide)).2.1⟩

/-- C3 counterexample: at target `"00"` the `/grover` handler raises a
`TypeError` while building the circuit (`qc.id()` on line 65 is called
without its required qubit argument), so no JSON object is returned at all —
refuting the claim's quantification over every target value. -/
theorem grover_unknown_target_no_json :
    (groverHandler ⟨Spacetime4D.init, HyperMemory.init⟩ "00" [false, false]).2 =
      none := by
  decide

/-- C3 (amended): for target `'11'` (the only target whose oracle branch
does not raise), the `/grover` response is the JSON object whose
`found_item` is the memory value at the fixed all-zero coordinate —
independent of the search's measurement outcome — whose `at_binary_index` is
the search's raw bitstring, and whose `quantum_speedup` is the fixed string
"ACHIEVED"; for every other target value, `qc.id()` raises an uncaught
`TypeError` and no JSON object is produced. -/
theorem grover_response_fixed_lookup (s : ServerState) (target : String)
    (outcome : List Bool) (h : target = "11") :
    (groverHandler s target outcome).2 =
      some { found_item := s.memory.retrieve (0, 0, 0, 0),
             at_binary_index := String.mk (outcome.map fun b => if b then '1' else '0'),
             quantum_speedup := "ACHIEVED" } ∧
    (∀ target2 : String, target2 ≠ "11" → (groverHandler s target2 outcome).2 = none) := by
  subst h
  constructor
  · simp [groverHandler, grover_search_found]
  · intro target2 h2
    simp [groverHandler, grover_search_raises target2 outcome h2]

theorem grover_response_fixed_lookup_witness :
    ("11" : String) = "11" ∧
    (groverHandler ⟨Spacetime4D.init, HyperMemory.init⟩ "11" [true, true]).2 =
      some { found_item := HyperMemory.init.retrieve (0, 0, 0, 0),
             at_binary_index := String.mk ([true, true].map fun b => if b then '1' else '0'),
             quantum_speedup := "ACHIEVED" } :=
  ⟨rfl,
   (grover_response_fixed_lookup ⟨Spacetime4D.init, HyperMemory.init⟩ "11"
      [true, true] rfl).1⟩

/-- C4: when `dt` or `dx` is present but not a valid float literal, the
`/move` handler raises before any mutation: no response is produced and the
server state is returned unchanged. -/
theorem move_parse_failure_no_mutation (s : ServerState)
    (dtArg dxArg : Option (Option ℚ))
    (h : dtArg = some none ∨ dxArg = some none) :
    moveHandler s dtArg dxArg = (s, none) := by
  rcases h with h | h
  · subst h; rfl
  · subst h
    rcases dtArg with _ | (_ | q) <;> rfl

theorem move_parse_failure_no_mutation_witness :
    ((some (some (1 : ℚ)) : Option (Option ℚ)) = some none ∨
      (some none : Option (Option ℚ)) = some none) ∧
    moveHandler ⟨Spacetime4D.init, HyperMemory.init⟩ (some (some 1)) (some none) =
      (⟨Spacetime4D.init, HyperMemory.init⟩, none) :=
  ⟨Or.inr rfl,
   move_parse_failure_no_mutation ⟨Spacetime4D.init, HyperMemory.init⟩
     (some (some 1)) (some none) (Or.inr rfl)⟩

/-- C5: with valid numeric parameters, `/move` adds `dt` to the time field
and `dx` to the x field, leaves y and z unchanged, and returns the new
position tuple. -/
theorem move_route_adds_deltas (s : ServerState) (dt dx : ℚ) :
    moveHandler s (some (some dt)) (some (some dx)) =
      ({ spacetime := ⟨s.spacetime.t + dt, s.spacetime.x + dx,
           s.spacetime.y, s.spacetime.z⟩,
         memory := s.memory },
       some { new_position := (Spacetime4D.c * (s.spacetime.t + dt),
         s.spacetime.x + dx, s.spacetime.y, s.spacetime.z) }) := by
  simp [moveHandler, parseParam, Spacetime4D.move]

/-- C6: the startup loop seeds the memory with exactly four entries, and
every route handler returns the memory component of the state unchanged. -/
theorem memory_seeded_once_and_preserved (vals : ℕ → ℕ) (s : ServerState)
    (now target : String) (outcome : List Bool) (dtArg dxArg : Option (Option ℚ)) :
    (startupState vals).memory.data.length = 4 ∧
    (homeHandler s).1.memory = s.memory ∧
    (statusHandler s now).1.memory = s.memory ∧
    (entangleHandler s outcome).1.memory = s.memory ∧
    (ghzHandler s outcome).1.memory = s.memory ∧
    (moveHandler s dtArg dxArg).1.memory = s.memory ∧
    (groverHandler s target outcome).1.memory = s.memory := by
  refine ⟨?_, rfl, rfl, rfl, rfl, ?_, ?_⟩
  · simp [startupState, seedAll_eq]
  · rcases dtArg with _ | (_ | q) <;> rcases dxArg with _ | (_ | q) <;> rfl
  · cases hg : grover_search target outcome <;> simp [groverHandler, hg]

/-- C7: for every state and every 2-bit measurement outcome, the `bell_pair`
field of the `/entangle` response is a 2-character binary string and the
`entanglement` field is the string "ACHIEVED". -/
theorem entangle_response_wellformed (s : ServerState) (outcome : List Bool)
    (h : outcome.length = 2) :
    (entangleHandler s outcome).2.bell_pair.length = 2 ∧
    (∀ ch ∈ (entangleHandler s outcome).2.bell_pair.toList, ch = '0' ∨ ch = '1') ∧
    (entangleHandler s outcome).2.entanglement = "ACHIEVED" := by
  refine ⟨?_, ?_, rfl⟩
  · simp [entangleHandler, create_entangled_pair_eq, String.length_mk, h]
  · intro ch hch
    simp only [entangleHandler, create_entangled_pair_eq, String.toList] at hch
    rcases List.mem_map.1 hch with ⟨b, _, rfl⟩
    cases b <;> simp

theorem entangle_response_wellformed_witness :
    ([true, false] : List Bool).length = 2 ∧
    (entangleHandler ⟨Spacetime4D.init, HyperMemory.init⟩
      [true, false]).2.bell_pair.length = 2 :=
  ⟨by decide,
   (entangle_response_wellformed ⟨Spacetime4D.init, HyperMemory.init⟩
      [true, false] (by decide)).1⟩

/-- C8: the tuple returned by `Spacetime4D.move` — and hence the position
reported by `/status` — has `299792458 * t` as its first component (the
constant times the accumulated time field) and the raw x, y, z fields as the
remaining components. -/
theorem position_tuple_scales_time (st : Spacetime4D) (dt dx dy dz : ℚ)
    (s : ServerState) (now : String) :
    (st.move dt dx dy dz).2 =
      (299792458 * (st.t + dt), st.x + dx, st.y + dy, st.z + dz) ∧
    (statusHandler s now).2.position =
      (299792458 * s.spacetime.t, s.spacetime.x, s.spacetime.y, s.spacetime.z) := by
  constructor
  · simp [Spacetime4D.move, Spacetime4D.c]
  · simp [statusHandler, Spacetime4D.move, Spacetime4D.c]

/-- C9: cumulative seeding stores the four keys x = 0, 1, 3, 6 (not
0, 1, 2, 3), leaves the position at t=0, x=6, y=0, z=0, and — since
(0,0,0,0) is among the keys — the `/grover` lookup at the all-zero
coordinate returns a seeded value below 100, never `none`. -/
theorem seeding_cumulative_keys (vals : ℕ → ℕ) (h : ∀ i, i < 4 → vals i < 100) :
    (seedAll vals).2.data.map Prod.fst =
      [(((0:ℚ)), (0:ℚ), (0:ℚ), (0:ℚ)), (0, 1, 0, 0), (0, 3, 0, 0), (0, 6, 0, 0)] ∧
    (seedAll vals).1 = ⟨0, 6, 0, 0⟩ ∧
    ∃ v, (seedAll vals).2.retrieve (0, 0, 0, 0) = some v ∧ v < 100 := by
  rw [seedAll_eq]
  exact ⟨rfl, rfl, vals 0, rfl, h 0 (by norm_num)⟩

theorem seeding_cumulative_keys_witness :
    (∀ i, i < 4 → (fun i => i) i < 100) ∧
    ∃ v, (seedAll fun i => i).2.retrieve (0, 0, 0, 0) = some v ∧ v < 100 :=
  ⟨fun i hi => show i < 100 by omega,
   (seeding_cumulative_keys (fun i => i) (fun i hi => show i < 100 by omega)).2.2⟩

/-- C10: moving by all-zero deltas returns the state unchanged together with
the current position tuple; hence the `/status` handler never modifies the
server state. -/
theorem move_zero_is_identity (st : Spacetime4D) (s : ServerState) (now : String) :
    st.move 0 0 0 0 = (st, (Spacetime4D.c * st.t, st.x, st.y, st.z)) ∧
    (statusHandler s now).1 = s := by
  constructor
  · simp [Spacetime4D.move]
  · simp [statusHandler, Spacetime4D.move]
